import Mathlib

/-!
Verification of the Eclaim-Health-Check repository against its specification.

The repository consists of four near-duplicate browser-automation scripts
(find_my_doctor.py, hk_eclaims.py, send_test_email_with_screenshot.py,
send_test_email_with_screenshot_playwright.py).  This file shallowly embeds
the claim-relevant logic: Python string normalisation and substring
containment, the get_env environment lookup, the text-comparison assertions,
the DOB-entry fallback ladder, the screenshot retry loop, the email builders,
the single-flow test wrapper and the three-flow batch runner.  Browser and
SMTP side effects are modelled by outcome oracles (Bool or Except values
saying whether each external call succeeds or raises).
-/

/-! ### Python string primitives (modelled on List Char) -/

/-- Model of the ASCII fragment of Python str.casefold and str.lower applied
to one character: A..Z maps to a..z, everything else is unchanged. -/
def asciiLower (c : Char) : Char :=
  if 'A' ≤ c ∧ c ≤ 'Z' then Char.ofNat (c.toNat + 32) else c

/-- Python str.strip default whitespace set (space, tab, newline, carriage
return, vertical tab, form feed). -/
def isPySpace (c : Char) : Bool :=
  c = ' ' || c = '\t' || c = '\n' || c = '\r' || c = '\x0b' || c = '\x0c'

/-- Python str.strip on a character list: drop whitespace from both ends. -/
def stripList (l : List Char) : List Char :=
  ((l.dropWhile isPySpace).reverse.dropWhile isPySpace).reverse

/-- Model of the Python expression value.strip().casefold() used to normalise
both sides of the text comparison. -/
def pyNorm (l : List Char) : List Char :=
  (stripList l).map asciiLower

/-- String-level strip, model of value.strip(). -/
def pyStripStr (s : String) : String :=
  String.mk (stripList s.data)

/-- Helper for substring search: does the needle match at the head of the
haystack. -/
def leadMatch : List Char → List Char → Bool
  | [], _ => true
  | _ :: _, [] => false
  | a :: as, b :: bs => a == b && leadMatch as bs

/-- Model of the Python substring operator needle in haystack. -/
def containsSub : List Char → List Char → Bool
  | n, [] => n.isEmpty
  | n, c :: t => leadMatch n (c :: t) || containsSub n t

/-- Did a fallible call succeed (no exception raised). -/
def exceptOk {ε α : Type} : Except ε α → Bool
  | Except.ok _ => true
  | Except.error _ => false

/-- Python sep.join on a list of strings. -/
def joinSep (sep : String) : List String → String
  | [] => ""
  | [a] => a
  | a :: b :: rest => a ++ sep ++ joinSep sep (b :: rest)

/-! ### Environment lookup: get_env (find_my_doctor.py lines 39-50,
hk_eclaims.py lines 44-55, identical in the other two scripts) -/

/-- An environment: a partial map from variable names to values.  none means
the variable is unset. -/
def Env : Type := String → Option String

/-- REQUIRED_VARS from the source. -/
def REQUIRED_VARS : List String := ["SMTP_USERNAME", "SMTP_PASSWORD", "TO_EMAIL"]

/-- Python truthiness of os.getenv(name): false when the variable is unset
(None) or set to the empty string. -/
def envTruthy (env : Env) (name : String) : Bool :=
  match env name with
  | none => false
  | some v => !(v == "")

/-- The list comprehension building the missing list inside get_env:
missing = [v for v in REQUIRED_VARS if not os.getenv(v)]. -/
def missingRequired (env : Env) : List String :=
  REQUIRED_VARS.filter (fun v => !envTruthy env v)

/-- The RuntimeError message raised by get_env, built exactly as the f-string
in the source does. -/
def envErrorMessage (env : Env) (name : String) : String :=
  "Missing required environment variable: " ++ name
    ++ "\nCurrently missing: " ++ joinSep ", " (missingRequired env)

/-- get_env from the source: return the value when it is truthy, otherwise
raise a RuntimeError listing all missing required variables. -/
def get_env (env : Env) (name : String) : Except String String :=
  match env name with
  | some val => if val == "" then Except.error (envErrorMessage env name) else Except.ok val
  | none => Except.error (envErrorMessage env name)

/-! ### The text-comparison checks -/

/-- The AssertionError message of the Playwright-variant check
(find_my_doctor.py lines 379-383, hk_eclaims.py lines 396-400). -/
def playwrightFailMsg (expected observed : String) : String :=
  "Error - Expected text not found.\nExpected (contains/equals): " ++ expected
    ++ "\nActual:                     " ++ observed

/-- The AssertionError message of the Selenium-variant check
(send_test_email_with_screenshot.py lines 282-286). -/
def seleniumFailMsg (expected observed : String) : String :=
  "Error - Expected text not found.\nExpected: " ++ expected
    ++ "\nActual:   " ++ observed

/-- The Playwright-variant text comparison (find_my_doctor.py lines 376-383,
hk_eclaims.py lines 393-400): skipped when expected is falsy, otherwise a
case-insensitive bidirectional substring containment of the stripped,
casefolded strings; on mismatch an assertion error carrying both originals. -/
def textCheckPlaywright (expected observed : String) : Except String Unit :=
  if expected = "" then Except.ok ()
  else
    let e := pyNorm expected.data
    let a := pyNorm observed.data
    if containsSub e a || containsSub a e then Except.ok ()
    else Except.error (playwrightFailMsg expected observed)

/-- The Selenium-variant text comparison (send_test_email_with_screenshot.py
lines 281-286): skipped when expected is falsy, otherwise exact string
equality of the raw observed and expected texts. -/
def textCheckSelenium (expected observed : String) : Except String Unit :=
  if expected = "" then Except.ok ()
  else if observed = expected then Except.ok ()
  else Except.error (seleniumFailMsg expected observed)

/-- The observation step of the Playwright flows (find_my_doctor.py lines
366-372): when the error element became visible with text t the observed
text is (t or "").strip(); on a timeout (none) it stays the empty string. -/
def observeErrorText (elementText : Option String) : String :=
  match elementText with
  | some t => pyStripStr t
  | none => ""

/-! ### Screenshot retry loop: stable_screenshot (find_my_doctor.py lines
234-254, hk_eclaims.py lines 258-274).  The outcome oracle ok gives the
result of the n-th page.screenshot call (0-indexed); the trace records
attempts and the fixed wait_for_timeout delays. -/

inductive ShotEvent
  | attempt
  | delay
deriving DecidableEq

/-- The for-loop of stable_screenshot: at most fuel attempts starting at
index i; a failed attempt is followed by a fixed delay; the loop stops at
the first success (the function returns).  Second component: did some loop
attempt succeed. -/
def screenshotTries (ok : Nat → Bool) : Nat → Nat → List ShotEvent × Bool
  | _, 0 => ([], false)
  | i, fuel + 1 =>
    if ok i then ([ShotEvent.attempt], true)
    else
      let r := screenshotTries ok (i + 1) fuel
      (ShotEvent.attempt :: ShotEvent.delay :: r.1, r.2)

/-- stable_screenshot: the retry loop, then one final unconditional attempt
whose failure propagates.  Second component: true when the call returns
normally, false when the final attempt raises. -/
def stable_screenshot (ok : Nat → Bool) (retries : Nat) : List ShotEvent × Bool :=
  let r := screenshotTries ok 0 retries
  if r.2 then (r.1, true) else (r.1 ++ [ShotEvent.attempt], ok retries)

/-- Number of screenshot attempts in a run. -/
def shotAttempts (r : List ShotEvent × Bool) : Nat :=
  r.1.count ShotEvent.attempt

/-- Number of fixed delays in a run. -/
def shotDelays (r : List ShotEvent × Bool) : Nat :=
  r.1.count ShotEvent.delay

/-- The tail of the Playwright flow after DOB entry (find_my_doctor.py lines
366-426): observe the error text (empty on timeout), run the text check,
and on success proceed to stable_screenshot with retries 3.  The result is
the screenshot trace on success, or the propagated assertion or screenshot
error. -/
def verifyThenScreenshot (expected : String) (elementText : Option String)
    (ok : Nat → Bool) : Except String (List ShotEvent) :=
  let observed := observeErrorText elementText
  match textCheckPlaywright expected observed with
  | Except.error m => Except.error m
  | Except.ok _ =>
    let r := stable_screenshot ok 3
    if r.2 then Except.ok r.1 else Except.error "screenshot raised"

/-! ### The DOB-entry fallback ladder (find_my_doctor.py lines 324-364,
hk_eclaims.py lines 344-382).  Each primitive page interaction is a step;
an oracle says which primitives raise.  A run is a trace of attempted steps
plus a flag saying whether an exception escaped. -/

inductive DobStep
  | scrollIntoView
  | clickField
  | clearField
  | typeValue
  | commitDispatch
  | pressEnter
  | jsSetValue
  | jsFocus
  | docEnterDispatch
deriving DecidableEq

/-- A partial run: the steps attempted, and whether an exception escaped. -/
abbrev PAct : Type := List DobStep × Bool

/-- One primitive interaction: attempted once; raises when its oracle bit is
false. -/
def pAct (s : DobStep) (ok : Bool) : PAct := ([s], !ok)

/-- Sequencing: the second action runs only when the first did not raise. -/
def pSeq (a b : PAct) : PAct :=
  if a.2 then a else (a.1 ++ b.1, b.2)

/-- A try/except-pass block: the exception, if any, is swallowed. -/
def pSwallow (a : PAct) : PAct := (a.1, false)

/-- A try/except-handler block: the handler runs exactly when the body
raised. -/
def pHandle (a b : PAct) : PAct :=
  if a.2 then (a.1 ++ b.1, b.2) else a

/-- Which primitive interactions succeed in a given run. -/
structure DobOracle where
  scrollOk : Bool
  clickOk : Bool
  fillOk : Bool
  typeOk : Bool
  dispatch1Ok : Bool
  press1Ok : Bool
  jsSetOk : Bool
  focusOk : Bool
  dispatch2Ok : Bool
  press2Ok : Bool
  docDispatchOk : Bool

/-- commit_and_press_enter (find_my_doctor.py lines 171-185): dispatch
input/change/blur inside try/except-pass, then press Enter inside
try/except-pass.  Every internal exception is swallowed. -/
def commit_and_press_enter (dOk pOk : Bool) : PAct :=
  pSeq (pSwallow (pAct DobStep.commitDispatch dOk))
    (pSwallow (pAct DobStep.pressEnter pOk))

/-- Tier 1, native typing (lines 329-339): guarded scroll, then click, clear,
type, and the swallowing commit helper.  The whole block sits in a
try/except that only records the failure. -/
def dobNativeTier (o : DobOracle) : PAct :=
  pSeq (pSwallow (pAct DobStep.scrollIntoView o.scrollOk))
    (pSeq (pAct DobStep.clickField o.clickOk)
      (pSeq (pAct DobStep.clearField o.fillOk)
        (pSeq (pAct DobStep.typeValue o.typeOk)
          (commit_and_press_enter o.dispatch1Ok o.press1Ok))))

/-- The focus-and-commit block of tier 2 (lines 347-353): guarded JS focus,
then the swallowing commit helper. -/
def dobJsCommitTier (o : DobOracle) : PAct :=
  pSeq (pSwallow (pAct DobStep.jsFocus o.focusOk))
    (commit_and_press_enter o.dispatch2Ok o.press2Ok)

/-- The full DOB entry (lines 328-364): try native typing; on failure call
set_input_value_js unguarded, then the focus-and-commit block guarded by an
except whose handler is the document-level Enter dispatch. -/
def dobEntry (o : DobOracle) : PAct :=
  let t1 := dobNativeTier o
  if t1.2 then
    pSeq (pSwallow t1)
      (pSeq (pAct DobStep.jsSetValue o.jsSetOk)
        (pHandle (dobJsCommitTier o) (pAct DobStep.docEnterDispatch o.docDispatchOk)))
  else t1

/-! ### Email builders (hk_eclaims.py lines 83-168,
send_test_email_with_screenshot_playwright.py lines 53-104).  The MIME
message is modelled structurally: one plain part and one HTML part carrying
section blocks and related inline attachments.  make_msgid is modelled as a
fresh-counter CID (one distinct id per loop iteration). -/

/-- One entry of the sections list handed to the multi-image builder (the
per-flow result dict of hk_eclaims.py). -/
structure FlowSection where
  title : String
  html_intro : String
  image_path : String
  image_subtype : String
  observed_error : Option String
  failure_reason : Option String
  status : String
deriving DecidableEq

/-- One rendered section block of the HTML body.  The source renders it as
an f-string; the fields here are the data interpolated into that block, and
cid is the content id referenced once as cid:... inside the block.  The
html.unescape applied to the intro in the source is kept as the raw intro
here; no claim depends on it. -/
structure HtmlBlock where
  title : String
  status : String
  intro : String
  observed_error : String
  failure_reason : String
  cid : Nat
deriving DecidableEq

/-- One inline image attached with add_related, keyed by its content id. -/
structure InlineAttachment where
  cid : Nat
  subtype : String
  filename : String
deriving DecidableEq

/-- The parts of the built message: set_content contributes the plain part,
add_alternative the HTML part to which add_related attaches the images. -/
inductive MimePart
  | plainText (body : String)
  | htmlWithRelated (blocks : List HtmlBlock) (atts : List InlineAttachment)
deriving DecidableEq

/-- html.escape of one character (quote=True): the five special characters
are replaced by their entities. -/
def escapeHtmlChar (c : Char) : List Char :=
  if c = '&' then "&amp;".data
  else if c = '<' then "&lt;".data
  else if c = '>' then "&gt;".data
  else if c = '"' then "&quot;".data
  else if c = '\'' then "&#x27;".data
  else [c]

/-- html.escape on a string. -/
def escapeHtml (s : String) : String :=
  String.mk (s.data.foldr (fun c acc => escapeHtmlChar c ++ acc) [])

/-- os.path.basename: the part after the last slash. -/
def pathBasename (s : String) : String :=
  String.mk ((s.data.reverse.takeWhile (fun c => !(c == '/'))).reverse)

/-- The block built for one section in the HTML loop of
build_message_with_multiple_images (hk_eclaims.py lines 113-142). -/
def sectionBlock (cid : Nat) (s : FlowSection) : HtmlBlock :=
  { title := escapeHtml s.title
    status := escapeHtml s.status
    intro := s.html_intro
    observed_error := escapeHtml (s.observed_error.getD "")
    failure_reason := escapeHtml (s.failure_reason.getD "")
    cid := cid }

/-- The attachment condition of the attach loop (hk_eclaims.py line 159):
if img_path and os.path.exists(img_path). -/
def attachCond (fileExists : String → Bool) (s : FlowSection) : Bool :=
  !(s.image_path == "") && fileExists s.image_path

/-- The HTML loop: one block per section, fresh CID per iteration. -/
def mkBlocks : Nat → List FlowSection → List HtmlBlock
  | _, [] => []
  | i, s :: rest => sectionBlock i s :: mkBlocks (i + 1) rest

/-- The attach loop (hk_eclaims.py lines 156-167): one related image per
section whose path is truthy and exists on disk; other sections are
silently skipped. -/
def mkAtts (fileExists : String → Bool) : Nat → List FlowSection → List InlineAttachment
  | _, [] => []
  | i, s :: rest =>
    (if attachCond fileExists s
     then [{ cid := i, subtype := s.image_subtype, filename := pathBasename s.image_path }]
     else [])
      ++ mkAtts fileExists (i + 1) rest

/-- build_message_with_multiple_images (hk_eclaims.py lines 83-168): one
plain part from set_content, one HTML part from add_alternative holding one
block per section, and the related attachments from the attach loop. -/
def build_message_with_multiple_images (fileExists : String → Bool)
    (text_body : String) (sections : List FlowSection) : List MimePart :=
  [MimePart.plainText text_body,
   MimePart.htmlWithRelated (mkBlocks 0 sections) (mkAtts fileExists 0 sections)]

/-- build_message_with_inline_image
(send_test_email_with_screenshot_playwright.py lines 53-104): one plain
part, one HTML part whose single block carries the intro and references one
CID, and exactly one related image attached under that CID (no existence
check: the open call would raise instead). -/
def build_message_with_inline_image (text_body html_intro image_path image_subtype : String) :
    List MimePart :=
  [MimePart.plainText text_body,
   MimePart.htmlWithRelated
     [{ title := "", status := "", intro := html_intro, observed_error := "",
        failure_reason := "", cid := 0 }]
     [{ cid := 0, subtype := image_subtype, filename := pathBasename image_path }]]

/-- Is a part the plain-text part. -/
def isPlainPart : MimePart → Bool
  | MimePart.plainText _ => true
  | MimePart.htmlWithRelated _ _ => false

/-- Is a part the HTML part. -/
def isHtmlPart : MimePart → Bool
  | MimePart.plainText _ => false
  | MimePart.htmlWithRelated _ _ => true

/-- How many times a content id is referenced by the blocks of the HTML
body across the message. -/
def blockCidCount (parts : List MimePart) (c : Nat) : Nat :=
  (parts.map fun p =>
    match p with
    | MimePart.plainText _ => 0
    | MimePart.htmlWithRelated blocks _ => (blocks.filter (fun b => b.cid == c)).length).sum

/-- How many attachments of the message carry a content id header equal to
c. -/
def attCidCount (parts : List MimePart) (c : Nat) : Nat :=
  (parts.map fun p =>
    match p with
    | MimePart.plainText _ => 0
    | MimePart.htmlWithRelated _ atts => (atts.filter (fun a => a.cid == c)).length).sum

/-! ### The single-flow test wrapper (find_my_doctor.py lines 528-595).
The flow call either returns the observed text or raises with a reason
string; the failure-path screenshot, the email policy flags, the screenshot
file existence and the SMTP send outcome are oracles. -/

/-- The configuration slice the wrapper reads. -/
structure WrapCfg where
  alwaysEmail : Bool
  emailOnFailure : Bool
  subjectBase : String
  htmlIntroBase : String

/-- What a wrapper run did: whether the failure-path capture ran, whether an
email was attempted and with which subject and intro, and what the call
raised or returned. -/
structure WrapperRun where
  failShotAttempted : Bool
  emailAttempted : Bool
  emailSubject : Option String
  emailHtmlIntro : Option String
  outcome : Except String Unit

/-- test_claimsimple_id_dob_flow_screenshot_email (find_my_doctor.py lines
528-595).  flowResult is the flow call outcome (observed text, or the str
of the raised exception); failShotOk is the outcome of the best-effort
failure-path stable_screenshot call, whose exception is swallowed;
shotExists is os.path.exists at email time; sendOk is the SMTP send
outcome.  A send failure inside the finally block replaces the in-flight
flow exception. -/
def test_wrapper (cfg : WrapCfg) (flowResult : Except String String)
    (failShotOk shotExists sendOk : Bool) : WrapperRun :=
  let observed := match flowResult with
    | Except.ok s => s
    | Except.error _ => ""
  let testFailed := match flowResult with
    | Except.ok _ => false
    | Except.error _ => true
  let failureReason := match flowResult with
    | Except.ok _ => ""
    | Except.error r => r
  let flowOutcome : Except String Unit := match flowResult with
    | Except.ok _ => Except.ok ()
    | Except.error r => Except.error r
  let shouldEmail := cfg.alwaysEmail || (testFailed && cfg.emailOnFailure)
  if shouldEmail && shotExists then
    let status := if testFailed then "FAILED" else "PASSED"
    let subject := cfg.subjectBase ++ " [" ++ status ++ "]"
    let intro₁ :=
      if observed == "" then cfg.htmlIntroBase
      else cfg.htmlIntroBase ++ "<br/><strong>Observed error:</strong> " ++ observed
    let intro₂ :=
      if failureReason == "" then intro₁
      else intro₁ ++ "<br/><strong>Failure reason:</strong> " ++ failureReason
    { failShotAttempted := testFailed
      emailAttempted := true
      emailSubject := some subject
      emailHtmlIntro := some intro₂
      outcome := if sendOk then flowOutcome else Except.error "SMTPException" }
  else
    { failShotAttempted := testFailed
      emailAttempted := false
      emailSubject := none
      emailHtmlIntro := none
      outcome := flowOutcome }

/-! ### The three-flow batch runner: test_all_flows_single_email
(hk_eclaims.py lines 546-656). -/

/-- What the batch run can raise: the SMTP failure from the email step, or
the final AssertionError carrying the failure details. -/
inductive BatchError
  | mailFailure
  | assertionFailed (details : String)
deriving DecidableEq

/-- The result dict appended for one flow (hk_eclaims.py lines 613-621):
status FAILED with the reason exactly when the runner raised, observed text
kept only on success. -/
def mkBatchSection (title intro shot : String) (out : Except String String) : FlowSection :=
  match out with
  | Except.ok obs =>
    { title := title, html_intro := intro, image_path := shot, image_subtype := "png"
      observed_error := some obs, failure_reason := none, status := "PASSED" }
  | Except.error r =>
    { title := title, html_intro := intro, image_path := shot, image_subtype := "png"
      observed_error := some "", failure_reason := some r, status := "FAILED" }

/-- The detail lines of the final AssertionError (hk_eclaims.py lines
651-656). -/
def failDetails (results : List FlowSection) : String :=
  joinSep "\n"
    ((results.filter (fun r => r.status == "FAILED")).map
      (fun r =>
        "- " ++ r.title ++ ": "
          ++ (if (r.failure_reason.getD "") == "" then "Unknown error"
              else r.failure_reason.getD "")))

/-- What a batch run did. -/
structure BatchRun where
  attempted : List String
  results : List FlowSection
  emailAttempted : Bool
  emailSubject : Option String
  emailMsg : Option (List MimePart)
  outcome : Except BatchError Unit

/-- test_all_flows_single_email (hk_eclaims.py lines 546-656): run the three
flows in a fixed order with per-flow exception capture, collect one result
per flow, send at most one email when the policy enables it, and finally
raise an AssertionError exactly when some flow failed - unless the email
step itself raised first.  outcomes gives each flow call result; introOf
and shotOf the per-flow body and screenshot path; fe is os.path.exists;
sendOk the SMTP outcome. -/
def runBatch (outcomes : Fin 3 → Except String String)
    (introOf shotOf : Fin 3 → String)
    (alwaysEmail emailOnFailure sendOk : Bool)
    (fe : String → Bool) (subjectBase textBody : String) : BatchRun :=
  let results :=
    [mkBatchSection "Outpatients Claims" (introOf 0) (shotOf 0) (outcomes 0),
     mkBatchSection "My Medical Card" (introOf 1) (shotOf 1) (outcomes 1),
     mkBatchSection "Find My Doctor" (introOf 2) (shotOf 2) (outcomes 2)]
  let anyFail := results.any (fun r => r.status == "FAILED")
  let shouldEmail := alwaysEmail || (anyFail && emailOnFailure)
  let subjectStatus := if anyFail then "FAILED" else "PASSED"
  { attempted := ["Outpatients Claims", "My Medical Card", "Find My Doctor"]
    results := results
    emailAttempted := shouldEmail
    emailSubject :=
      if shouldEmail then some (subjectBase ++ " [" ++ subjectStatus ++ "]") else none
    emailMsg :=
      if shouldEmail then some (build_message_with_multiple_images fe textBody results)
      else none
    outcome :=
      if shouldEmail && !sendOk then Except.error BatchError.mailFailure
      else if anyFail then Except.error (BatchError.assertionFailed (failDetails results))
      else Except.ok () }

/-- The status recorded for one flow of the batch runner: FAILED exactly
when the runner raised. -/
def flowStatus (out : Except String String) : String :=
  match out with
  | Except.ok _ => "PASSED"
  | Except.error _ => "FAILED"

/-! ### Bridging lemmas for the substring model -/

theorem leadMatch_iff (n : List Char) : ∀ h : List Char,
    leadMatch n h = true ↔ ∃ t, n ++ t = h := by
  induction n with
  | nil =>
    intro h
    simp [leadMatch]
  | cons a as ih =>
    intro h
    cases h with
    | nil => simp [leadMatch]
    | cons b bs =>
      simp only [leadMatch, Bool.and_eq_true, beq_iff_eq, ih bs, List.cons_append,
        List.cons.injEq]
      constructor
      · rintro ⟨rfl, t, rfl⟩
        exact ⟨t, rfl, rfl⟩
      · rintro ⟨t, rfl, rfl⟩
        exact ⟨rfl, t, rfl⟩

theorem containsSub_iff (n : List Char) : ∀ h : List Char,
    containsSub n h = true ↔ n <:+: h := by
  intro h
  induction h with
  | nil =>
    simp only [containsSub, List.isEmpty_iff]
    constructor
    · rintro rfl
      exact ⟨[], [], rfl⟩
    · rintro ⟨s, t, hst⟩
      rcases List.append_eq_nil.mp hst with ⟨hsn, htn⟩
      rcases List.append_eq_nil.mp hsn with ⟨_, rfl⟩
      rfl
  | cons c t ih =>
    simp only [containsSub, Bool.or_eq_true, leadMatch_iff, ih]
    constructor
    · rintro (⟨u, hu⟩ | ⟨s, u, rfl⟩)
      · exact ⟨[], u, by simpa using hu⟩
      · exact ⟨c :: s, u, rfl⟩
    · rintro ⟨s, u, hsu⟩
      cases s with
      | nil =>
        left
        exact ⟨u, by simpa using hsu⟩
      | cons a s₂ =>
        right
        simp only [List.cons_append, List.cons.injEq] at hsu
        exact ⟨s₂, u, hsu.2⟩

theorem joinSep_mem_infix (sep : String) (v : String) : ∀ l : List String,
    v ∈ l → v.data <:+: (joinSep sep l).data := by
  intro l
  induction l with
  | nil => intro hv; cases hv
  | cons a rest ih =>
    intro hv
    cases rest with
    | nil =>
      rcases List.mem_singleton.mp hv with rfl
      exact ⟨[], [], by simp [joinSep]⟩
    | cons b rest₂ =>
      rcases List.mem_cons.mp hv with rfl | hv₂
      · exact ⟨[], (sep ++ joinSep sep (b :: rest₂)).data,
          by simp [joinSep, String.data_append]⟩
      · rcases ih hv₂ with ⟨s, u, hsu⟩
        exact ⟨(a ++ sep).data ++ s, u,
          by simp [joinSep, String.data_append, ← hsu]⟩

theorem dataInfixExtend {v l : List Char} (p q : List Char) (h : v <:+: l) :
    v <:+: (p ++ l ++ q) := by
  rcases h with ⟨s, t, rfl⟩
  exact ⟨p ++ s, t ++ q, by simp⟩

/-- C6: for every environment and requested variable, get_env raises exactly
when the requested variable has no value, the raised message is exactly the
one built from the missing list, a variable is in that list precisely when
it is required and currently missing, and every listed variable occurs in
the message text. -/
theorem get_env_missing_characterization (env : Env) (name : String) :
    (exceptOk (get_env env name) = true ↔ envTruthy env name = true) ∧
    (∀ m, get_env env name = Except.error m → m = envErrorMessage env name) ∧
    (∀ v, v ∈ missingRequired env ↔ v ∈ REQUIRED_VARS ∧ envTruthy env v = false) ∧
    (∀ v, v ∈ missingRequired env → v.data <:+: (envErrorMessage env name).data) := by
  refine ⟨?_, ?_, ?_, ?_⟩
  · cases henv : env name with
    | none => simp [get_env, envTruthy, henv, exceptOk]
    | some v =>
      by_cases hv : v == ""
      · simp [get_env, envTruthy, henv, hv, exceptOk]
      · simp [get_env, envTruthy, henv, hv, exceptOk]
  · intro m hm
    cases henv : env name with
    | none =>
      simp only [get_env, henv] at hm
      exact (Except.error.inj hm).symm
    | some v =>
      simp only [get_env, henv] at hm
      by_cases hv : v == ""
      · rw [if_pos hv] at hm
        exact (Except.error.inj hm).symm
      · rw [if_neg hv] at hm
        cases hm
  · intro v
    simp [missingRequired, List.mem_filter]
  · intro v hv
    have hj := joinSep_mem_infix ", " v (missingRequired env) hv
    rcases hj with ⟨s, t, hst⟩
    refine ⟨("Missing required environment variable: " ++ name
      ++ "\nCurrently missing: ").data ++ s, t, ?_⟩
    simp only [envErrorMessage, String.data_append, ← hst]
    simp

/-- C6 witness: with only SMTP_USERNAME set, requesting SMTP_PASSWORD raises
and the message text also lists TO_EMAIL. -/
theorem get_env_missing_characterization_witness :
    exceptOk (get_env (fun v => if v == "SMTP_USERNAME" then some "user" else none)
      "SMTP_PASSWORD") = false ∧
    "TO_EMAIL".data <:+:
      (envErrorMessage (fun v => if v == "SMTP_USERNAME" then some "user" else none)
        "SMTP_PASSWORD").data := by
  have h := get_env_missing_characterization
    (fun v => if v == "SMTP_USERNAME" then some "user" else none) "SMTP_PASSWORD"
  constructor
  · rw [Bool.eq_false_iff]
    intro hb
    exact absurd (h.1.mp hb) (by decide)
  · exact h.2.2.2 "TO_EMAIL" (by decide)

/-- C9: a required variable that is unset or set to the empty string is
treated identically by get_env: the lookup raises and the variable is
counted among the missing required values. -/
theorem get_env_empty_as_absent (env : Env) (name : String)
    (hreq : name ∈ REQUIRED_VARS) (hval : env name = none ∨ env name = some "") :
    get_env env name = Except.error (envErrorMessage env name) ∧
    name ∈ missingRequired env := by
  have ht : envTruthy env name = false := by
    rcases hval with h | h <;> simp [envTruthy, h]
  constructor
  · rcases hval with h | h <;> simp [get_env, h]
  · simp [missingRequired, List.mem_filter, hreq, ht]

/-- C9 witness: TO_EMAIL set to the empty string while the other variables
are set: the lookup raises and TO_EMAIL is in the missing list. -/
theorem get_env_empty_as_absent_witness :
    get_env (fun v => if v == "TO_EMAIL" then some "" else some "x") "TO_EMAIL"
      = Except.error (envErrorMessage
          (fun v => if v == "TO_EMAIL" then some "" else some "x") "TO_EMAIL") ∧
    "TO_EMAIL" ∈ missingRequired (fun v => if v == "TO_EMAIL" then some "" else some "x") :=
  get_env_empty_as_absent _ "TO_EMAIL" (by decide) (Or.inr (by decide))

/-- C1 counterexample: at expected abc and observed ABC the stripped,
casefolded containment holds (and the Playwright-variant check passes), yet
the Selenium-variant check cited by the claim fails, because it compares
the raw strings for exact equality. -/
theorem text_check_selenium_equality_counterexample :
    containsSub (pyNorm "abc".data) (pyNorm "ABC".data) = true ∧
    exceptOk (textCheckPlaywright "abc" "ABC") = true ∧
    exceptOk (textCheckSelenium "abc" "ABC") = false := by
  refine ⟨by decide, by decide, by decide⟩

/-- C1 (amended): the Playwright-variant check passes exactly when the
stripped casefolded expected text is a substring of the observed one or
vice versa, while the Selenium-variant check passes exactly when the raw
observed text equals the expected one (or the expected text is empty);
either check, when it fails, raises exactly its message, which contains
both the expected and the observed string verbatim. -/
theorem text_check_variants_characterization (e o : String) :
    (exceptOk (textCheckPlaywright e o) = true ↔
      (pyNorm e.data <:+: pyNorm o.data ∨ pyNorm o.data <:+: pyNorm e.data)) ∧
    (exceptOk (textCheckSelenium e o) = true ↔ (e = "" ∨ o = e)) ∧
    (textCheckPlaywright e o = Except.ok () ∨
      textCheckPlaywright e o = Except.error (playwrightFailMsg e o)) ∧
    e.data <:+: (playwrightFailMsg e o).data ∧
    o.data <:+: (playwrightFailMsg e o).data ∧
    (textCheckSelenium e o = Except.ok () ∨
      textCheckSelenium e o = Except.error (seleniumFailMsg e o)) ∧
    e.data <:+: (seleniumFailMsg e o).data ∧
    o.data <:+: (seleniumFailMsg e o).data := by
  have hemp : pyNorm ("" : String).data = [] := by decide
  refine ⟨?_, ?_, ?_, ?_, ?_, ?_, ?_, ?_⟩
  · by_cases he : e = ""
    · subst he
      simp only [textCheckPlaywright, if_pos rfl, exceptOk, hemp]
      constructor
      · intro _
        exact Or.inl ⟨[], pyNorm o.data, by simp⟩
      · intro _
        rfl
    · simp only [textCheckPlaywright, if_neg he]
      rw [← containsSub_iff, ← containsSub_iff, ← Bool.or_eq_true]
      cases hc : containsSub (pyNorm e.data) (pyNorm o.data)
            || containsSub (pyNorm o.data) (pyNorm e.data) <;>
        simp [hc, exceptOk]
  · by_cases he : e = ""
    · simp [textCheckSelenium, he, exceptOk]
    · by_cases hoe : o = e <;> simp [textCheckSelenium, he, hoe, exceptOk]
  · by_cases he : e = ""
    · exact Or.inl (by simp [textCheckPlaywright, he])
    · simp only [textCheckPlaywright, if_neg he]
      cases hc : containsSub (pyNorm e.data) (pyNorm o.data)
            || containsSub (pyNorm o.data) (pyNorm e.data) <;> simp
  · exact ⟨"Error - Expected text not found.\nExpected (contains/equals): ".data,
      ("\nActual:                     " ++ o).data,
      by simp [playwrightFailMsg, String.data_append]⟩
  · exact ⟨("Error - Expected text not found.\nExpected (contains/equals): " ++ e
        ++ "\nActual:                     ").data, [],
      by simp [playwrightFailMsg, String.data_append]⟩
  · by_cases he : e = ""
    · exact Or.inl (by simp [textCheckSelenium, he])
    · by_cases hoe : o = e <;> simp [textCheckSelenium, he, hoe]
  · exact ⟨"Error - Expected text not found.\nExpected: ".data,
      ("\nActual:   " ++ o).data, by simp [seleniumFailMsg, String.data_append]⟩
  · exact ⟨("Error - Expected text not found.\nExpected: " ++ e ++ "\nActual:   ").data,
      [], by simp [seleniumFailMsg, String.data_append]⟩

/-- C8: when the error element never becomes visible (timeout), the observed
text is the empty string, the bidirectional containment check passes for
every non-empty expected text, and the flow tail reaches the screenshot
step with no assertion failure. -/
theorem empty_observed_passes_check (expected : String) (ok : Nat → Bool)
    (hne : expected ≠ "") :
    observeErrorText none = "" ∧
    textCheckPlaywright expected (observeErrorText none) = Except.ok () ∧
    verifyThenScreenshot expected none ok =
      (if (stable_screenshot ok 3).2 then Except.ok (stable_screenshot ok 3).1
       else Except.error "screenshot raised") := by
  have hemp : pyNorm ("" : String).data = [] := by decide
  have hpass : textCheckPlaywright expected "" = Except.ok () := by
    simp only [textCheckPlaywright, if_neg hne, hemp]
    have hc : containsSub [] (pyNorm expected.data) = true := by
      rw [containsSub_iff]
      exact ⟨[], pyNorm expected.data, by simp⟩
    simp [hc]
  refine ⟨rfl, hpass, ?_⟩
  simp only [verifyThenScreenshot, observeErrorText, hpass]

/-- C8 witness: with the default expected error text and an always-succeeding
screenshot oracle, a timeout (observed empty) passes the check. -/
theorem empty_observed_passes_check_witness :
    observeErrorText none = "" ∧
    textCheckPlaywright
      "The information you provided does not match our records. Please try again."
      (observeErrorText none) = Except.ok () := by
  have h := empty_observed_passes_check
    "The information you provided does not match our records. Please try again."
    (fun _ => true) (by decide)
  exact ⟨h.1, h.2.1⟩

/-- C3: inside the retry loop the screenshot is attempted up to 3 times with
a fixed delay after each failure; the first success returns immediately
with no further attempts; after 3 failures exactly one extra unconditional
attempt is made and its outcome (including a raised exception) is the
outcome of the call. -/
theorem stable_screenshot_retry_behavior (ok : Nat → Bool) :
    (∀ k, k < 3 → (∀ j, j < k → ok j = false) → ok k = true →
      shotAttempts (stable_screenshot ok 3) = k + 1 ∧
      shotDelays (stable_screenshot ok 3) = k ∧
      (stable_screenshot ok 3).2 = true) ∧
    ((∀ j, j < 3 → ok j = false) →
      shotAttempts (stable_screenshot ok 3) = 4 ∧
      shotDelays (stable_screenshot ok 3) = 3 ∧
      (stable_screenshot ok 3).2 = ok 3) := by
  constructor
  · intro k hk hprev hsucc
    interval_cases k
    · simp [stable_screenshot, screenshotTries, hsucc, shotAttempts, shotDelays]
    · have h0 : ok 0 = false := hprev 0 (by omega)
      simp [stable_screenshot, screenshotTries, h0, hsucc, shotAttempts, shotDelays]
    · have h0 : ok 0 = false := hprev 0 (by omega)
      have h1 : ok 1 = false := hprev 1 (by omega)
      simp [stable_screenshot, screenshotTries, h0, h1, hsucc, shotAttempts, shotDelays]
  · intro hall
    have h0 : ok 0 = false := hall 0 (by omega)
    have h1 : ok 1 = false := hall 1 (by omega)
    have h2 : ok 2 = false := hall 2 (by omega)
    simp [stable_screenshot, screenshotTries, h0, h1, h2, shotAttempts, shotDelays]

/-- C3 witness: one failure then success gives exactly two attempts and one
delay; three failures give four attempts with the final outcome that of the
fourth attempt. -/
theorem stable_screenshot_retry_behavior_witness :
    shotAttempts (stable_screenshot (fun n => n == 1) 3) = 2 ∧
    shotDelays (stable_screenshot (fun n => n == 1) 3) = 1 ∧
    (stable_screenshot (fun n => n == 1) 3).2 = true ∧
    shotAttempts (stable_screenshot (fun _ => false) 3) = 4 ∧
    (stable_screenshot (fun _ => false) 3).2 = false := by
  have h := (stable_screenshot_retry_behavior (fun n => n == 1)).1 1 (by omega)
    (by decide) (by decide)
  have h₂ := (stable_screenshot_retry_behavior (fun _ => false)).2 (fun j _ => rfl)
  exact ⟨h.1, h.2.1, h.2.2, h₂.1, by rw [h₂.2.2]⟩

/-- Closed form of the native-typing tier: the scroll failure is swallowed,
the commit helper swallows its own failures, so the tier raises exactly
when click, clear or type raises, stopping at the first raising step. -/
theorem dobNativeTier_eq (o : DobOracle) :
    dobNativeTier o =
      if o.clickOk then
        if o.fillOk then
          if o.typeOk then
            ([DobStep.scrollIntoView, DobStep.clickField, DobStep.clearField,
              DobStep.typeValue, DobStep.commitDispatch, DobStep.pressEnter], false)
          else ([DobStep.scrollIntoView, DobStep.clickField, DobStep.clearField,
                 DobStep.typeValue], true)
        else ([DobStep.scrollIntoView, DobStep.clickField, DobStep.clearField], true)
      else ([DobStep.scrollIntoView, DobStep.clickField], true) := by
  rcases o with ⟨s, c, f, t, d1, p1, js, fo, d2, p2, dd⟩
  cases c <;> cases f <;> cases t <;> rfl

/-- The focus-and-commit block of tier 2 always performs focus, dispatch and
press, and never raises. -/
theorem dobJsCommitTier_eq (o : DobOracle) :
    dobJsCommitTier o
      = ([DobStep.jsFocus, DobStep.commitDispatch, DobStep.pressEnter], false) := rfl

/-- Closed form of the whole DOB entry: the native tier alone when it did
not raise; otherwise its steps, then the JS setter, then - only when the JS
setter did not raise - the focus-and-commit steps.  The document-level
dispatch appears in no branch. -/
theorem dobEntry_eq (o : DobOracle) :
    dobEntry o =
      if (dobNativeTier o).2 then
        if o.jsSetOk then
          ((dobNativeTier o).1 ++ [DobStep.jsSetValue, DobStep.jsFocus,
            DobStep.commitDispatch, DobStep.pressEnter], false)
        else ((dobNativeTier o).1 ++ [DobStep.jsSetValue], true)
      else dobNativeTier o := by
  rcases o with ⟨s, c, f, t, d1, p1, js, fo, d2, p2, dd⟩
  cases c <;> cases f <;> cases t <;> cases js <;> rfl

/-- C2 counterexample: when native typing raises at the click and the JS
value-setter itself raises, tier 2 was attempted and raised an error, yet
the document-level dispatch (tier 3) is never attempted - the exception
propagates instead - refuting that tier k+1 is attempted exactly when tier
k raised. -/
theorem dob_fallback_tier3_not_after_jssetter_error :
    DobStep.jsSetValue ∈ (dobEntry
      ⟨true, false, true, true, true, true, false, true, true, true, true⟩).1 ∧
    (dobEntry
      ⟨true, false, true, true, true, true, false, true, true, true, true⟩).2 = true ∧
    DobStep.docEnterDispatch ∉ (dobEntry
      ⟨true, false, true, true, true, true, false, true, true, true, true⟩).1 := by
  decide

/-- C2 (amended): tier 2 is attempted exactly when tier 1 (native typing)
raised; after a successful tier the run is exactly that tier and nothing
later is attempted; the document-level dispatch (tier 3) is never attempted
for any outcome pattern, because the tier-2 commit helper swallows its own
errors; and an error in the JS value-setter propagates without attempting
tier 3. -/
theorem dob_fallback_ladder_behavior (o : DobOracle) :
    (DobStep.jsSetValue ∈ (dobEntry o).1 ↔ (dobNativeTier o).2 = true) ∧
    ((dobNativeTier o).2 = false → dobEntry o = dobNativeTier o) ∧
    DobStep.docEnterDispatch ∉ (dobEntry o).1 ∧
    ((dobNativeTier o).2 = true → o.jsSetOk = false → (dobEntry o).2 = true) ∧
    ((dobNativeTier o).2 = true → o.jsSetOk = true →
      (dobEntry o).1 = (dobNativeTier o).1 ++ [DobStep.jsSetValue, DobStep.jsFocus,
        DobStep.commitDispatch, DobStep.pressEnter] ∧ (dobEntry o).2 = false) ∧
    ((dobNativeTier o).2 = true ↔ (o.clickOk && o.fillOk && o.typeOk) = false) := by
  have ht := dobNativeTier_eq o
  have he := dobEntry_eq o
  by_cases hc : o.clickOk = true <;> by_cases hf : o.fillOk = true <;>
    by_cases htk : o.typeOk = true <;> by_cases hjs : o.jsSetOk = true <;>
      simp only [Bool.not_eq_true] at hc hf htk hjs <;>
      simp [ht, he, hc, hf, htk, hjs]

/-- C2 witness: native typing fails at the click and the JS tier succeeds:
tier 2 runs to completion after tier 1 and nothing raises. -/
theorem dob_fallback_ladder_behavior_witness :
    (dobNativeTier
      ⟨true, false, true, true, true, true, true, true, true, true, true⟩).2 = true ∧
    (dobEntry ⟨true, false, true, true, true, true, true, true, true, true, true⟩).1
      = (dobNativeTier
          ⟨true, false, true, true, true, true, true, true, true, true, true⟩).1
        ++ [DobStep.jsSetValue, DobStep.jsFocus, DobStep.commitDispatch,
            DobStep.pressEnter] ∧
    (dobEntry ⟨true, false, true, true, true, true, true, true, true, true, true⟩).2
      = false := by
  have h := dob_fallback_ladder_behavior
    ⟨true, false, true, true, true, true, true, true, true, true, true⟩
  have h₅ := h.2.2.2.2.1 (by decide) (by decide)
  exact ⟨by decide, h₅.1, h₅.2⟩

/-- C5 counterexample: native typing fails at the click, the JS setter
succeeds, and the Enter press of the tier-2 commit raises; that failure is
swallowed inside commit_and_press_enter, so the document-level dispatch is
not executed and no error surfaces - refuting that the document-level
branch runs exactly when the tier-2 commit fails. -/
theorem doc_dispatch_not_on_commit_failure :
    (DobOracle.press2Ok
      ⟨true, false, true, true, true, true, true, true, true, false, true⟩) = false ∧
    DobStep.pressEnter ∈ (dobEntry
      ⟨true, false, true, true, true, true, true, true, true, false, true⟩).1 ∧
    DobStep.docEnterDispatch ∉ (dobEntry
      ⟨true, false, true, true, true, true, true, true, true, false, true⟩).1 ∧
    (dobEntry
      ⟨true, false, true, true, true, true, true, true, true, false, true⟩).2 = false := by
  decide

/-- C5 (amended): the document-level Enter dispatch would run exactly when
the guarded tier-2 focus-and-commit block raises an uncaught exception; but
commit_and_press_enter swallows every internal error, the block never
raises, and the dispatch branch is unreachable for every outcome pattern. -/
theorem doc_dispatch_unreachable (o : DobOracle) :
    (commit_and_press_enter o.dispatch2Ok o.press2Ok).2 = false ∧
    (dobJsCommitTier o).2 = false ∧
    DobStep.docEnterDispatch ∉ (dobEntry o).1 := by
  refine ⟨rfl, rfl, ?_⟩
  have ht := dobNativeTier_eq o
  have he := dobEntry_eq o
  by_cases hc : o.clickOk = true <;> by_cases hf : o.fillOk = true <;>
    by_cases htk : o.typeOk = true <;> by_cases hjs : o.jsSetOk = true <;>
      simp only [Bool.not_eq_true] at hc hf htk hjs <;>
      simp [ht, he, hc, hf, htk, hjs]

theorem mkBlocks_length (ss : List FlowSection) : ∀ i, (mkBlocks i ss).length = ss.length := by
  induction ss with
  | nil => intro i; rfl
  | cons s rest ih => intro i; simp [mkBlocks, ih (i + 1)]

theorem mkBlocks_cid_count (c : Nat) (ss : List FlowSection) : ∀ i : Nat,
    ((mkBlocks i ss).filter (fun b => b.cid == c)).length
      = if i ≤ c ∧ c < i + ss.length then 1 else 0 := by
  induction ss with
  | nil =>
    intro i
    simp only [mkBlocks, List.filter_nil, List.length_nil]
    rw [if_neg (by omega)]
  | cons s rest ih =>
    intro i
    have hr := ih (i + 1)
    by_cases hic : i = c
    · subst hic
      have hcond : i ≤ i ∧ i < i + (s :: rest).length := by
        simp only [List.length_cons]
        omega
      have hnot : ¬(i + 1 ≤ i ∧ i < i + 1 + rest.length) := by omega
      rw [if_neg hnot] at hr
      simp [mkBlocks, sectionBlock, List.filter_cons, hr, hcond]
    · have hb : ((sectionBlock i s).cid == c) = false := by
        simp [sectionBlock, hic]
      simp only [mkBlocks, List.filter_cons, hb, Bool.false_eq_true, if_false, hr,
        List.length_cons]
      split <;> split <;> first | rfl | omega

theorem mkAtts_cid_floor (fe : String → Bool) (ss : List FlowSection) : ∀ i : Nat,
    ∀ a ∈ mkAtts fe i ss, i ≤ a.cid := by
  induction ss with
  | nil => intro i a ha; cases ha
  | cons s rest ih =>
    intro i a ha
    simp only [mkAtts, List.mem_append] at ha
    rcases ha with ha | ha
    · rcases hcond : attachCond fe s with _ | _ <;> rw [hcond] at ha
      · cases ha
      · rcases List.mem_singleton.mp ha with rfl
        exact Nat.le_refl i
    · exact Nat.le_of_succ_le (ih (i + 1) a ha)

theorem mkAtts_cid_count (fe : String → Bool) (ss : List FlowSection) :
    ∀ (i j : Nat) (hj : j < ss.length),
    ((mkAtts fe i ss).filter (fun a => a.cid == (i + j))).length
      = if attachCond fe (ss.get ⟨j, hj⟩) then 1 else 0 := by
  induction ss with
  | nil => intro i j hj; cases hj
  | cons s rest ih =>
    intro i j hj
    cases j with
    | zero =>
      simp only [Nat.add_zero]
      have hget0 : (s :: rest).get ⟨0, hj⟩ = s := rfl
      rw [hget0]
      have htail : ((mkAtts fe (i + 1) rest).filter (fun a => a.cid == i)).length = 0 := by
        rw [List.length_eq_zero, List.filter_eq_nil_iff]
        intro a ha
        have hfloor := mkAtts_cid_floor fe rest (i + 1) a ha
        simp only [beq_iff_eq]
        omega
      simp only [mkAtts, List.filter_append, List.length_append, htail]
      rcases hcond : attachCond fe s with _ | _ <;> simp [hcond]
    | succ j₂ =>
      have hj₂ : j₂ < rest.length := Nat.lt_of_succ_lt_succ (by simpa using hj)
      have hr := ih (i + 1) j₂ hj₂
      have harith : i + (j₂ + 1) = (i + 1) + j₂ := by omega
      have hget : (s :: rest).get ⟨j₂ + 1, hj⟩ = rest.get ⟨j₂, hj₂⟩ := rfl
      rw [hget]
      simp only [harith]
      rcases hcond : attachCond fe s with _ | _
      · simp only [mkAtts, hcond, Bool.false_eq_true, if_false, List.nil_append, hr]
      · have hcidne : (i == ((i + 1) + j₂)) = false := by
          have hne : ¬(i = (i + 1) + j₂) := by omega
          simpa [beq_eq_false_iff_ne] using hne
        simp only [mkAtts, hcond, if_true, List.singleton_append, List.filter_cons, hcidne,
          Bool.false_eq_true, if_false, hr]

/-- C7 counterexample: a single section whose screenshot file does not exist
on disk yields an HTML body referencing its CID once but zero related
inline attachments, refuting that the builder attaches exactly one inline
image per section. -/
theorem email_builder_missing_file_no_attachment :
    blockCidCount
      (build_message_with_multiple_images (fun _ => false) "body"
        [{ title := "Outpatients Claims", html_intro := "Hi Team",
           image_path := "shot_1.png", image_subtype := "png",
           observed_error := some "", failure_reason := some "TimeoutError",
           status := "FAILED" }]) 0 = 1 ∧
    attCidCount
      (build_message_with_multiple_images (fun _ => false) "body"
        [{ title := "Outpatients Claims", html_intro := "Hi Team",
           image_path := "shot_1.png", image_subtype := "png",
           observed_error := some "", failure_reason := some "TimeoutError",
           status := "FAILED" }]) 0 = 0 := by
  constructor <;> rfl

/-- C7 (amended): for every list of sections the multi-image builder emits
exactly one plain-text part and one HTML part, with one block per section,
each section CID referenced exactly once in the HTML body; exactly one
related inline attachment carries that CID when the section image path is
truthy and the file exists, and zero otherwise.  The single-image builder
always emits one plain part, one HTML part, and exactly one related
attachment whose CID is referenced once. -/
theorem email_builder_parts_and_cids (fe : String → Bool)
    (textBody htmlIntro imgPath imgSub : String) (sections : List FlowSection) :
    (build_message_with_multiple_images fe textBody sections).countP
      (fun p => isPlainPart p) = 1 ∧
    (build_message_with_multiple_images fe textBody sections).countP
      (fun p => isHtmlPart p) = 1 ∧
    (mkBlocks 0 sections).length = sections.length ∧
    (∀ j : Fin sections.length,
      blockCidCount (build_message_with_multiple_images fe textBody sections) j.val = 1 ∧
      attCidCount (build_message_with_multiple_images fe textBody sections) j.val
        = (if attachCond fe (sections.get j) then 1 else 0)) ∧
    (build_message_with_inline_image textBody htmlIntro imgPath imgSub).countP
      (fun p => isPlainPart p) = 1 ∧
    (build_message_with_inline_image textBody htmlIntro imgPath imgSub).countP
      (fun p => isHtmlPart p) = 1 ∧
    blockCidCount (build_message_with_inline_image textBody htmlIntro imgPath imgSub) 0 = 1 ∧
    attCidCount (build_message_with_inline_image textBody htmlIntro imgPath imgSub) 0 = 1 := by
  refine ⟨?_, ?_, mkBlocks_length sections 0, ?_, ?_, ?_, ?_, ?_⟩
  · simp [build_message_with_multiple_images, List.countP, List.countP.go, isPlainPart,
      isHtmlPart]
  · simp [build_message_with_multiple_images, List.countP, List.countP.go, isPlainPart,
      isHtmlPart]
  · intro j
    constructor
    · have h := mkBlocks_cid_count j.val sections 0
      have hcond : 0 ≤ j.val ∧ j.val < 0 + sections.length := by
        exact ⟨Nat.zero_le _, by simpa using j.isLt⟩
      rw [if_pos hcond] at h
      simpa [blockCidCount, build_message_with_multiple_images] using h
    · have h := mkAtts_cid_count fe sections 0 j.val j.isLt
      have hz : (0 : Nat) + j.val = j.val := by omega
      rw [hz] at h
      have hget : sections.get ⟨j.val, j.isLt⟩ = sections.get j := rfl
      rw [hget] at h
      simpa [attCidCount, build_message_with_multiple_images] using h
  · rfl
  · rfl
  · rfl
  · rfl

/-- C7 witness: three sections with existing files: one plain part, one HTML
part, three blocks, and each of the three CIDs appears once as a block
reference and once as an attachment CID. -/
theorem email_builder_parts_and_cids_witness :
    (build_message_with_multiple_images (fun _ => true) "txt"
      [{ title := "A", html_intro := "a", image_path := "1.png", image_subtype := "png",
         observed_error := some "", failure_reason := none, status := "PASSED" },
       { title := "B", html_intro := "b", image_path := "2.png", image_subtype := "png",
         observed_error := some "", failure_reason := none, status := "PASSED" },
       { title := "C", html_intro := "c", image_path := "3.png", image_subtype := "png",
         observed_error := some "", failure_reason := some "boom", status := "FAILED" }]).countP
      (fun p => isPlainPart p) = 1 ∧
    blockCidCount
      (build_message_with_multiple_images (fun _ => true) "txt"
        [{ title := "A", html_intro := "a", image_path := "1.png", image_subtype := "png",
           observed_error := some "", failure_reason := none, status := "PASSED" },
         { title := "B", html_intro := "b", image_path := "2.png", image_subtype := "png",
           observed_error := some "", failure_reason := none, status := "PASSED" },
         { title := "C", html_intro := "c", image_path := "3.png", image_subtype := "png",
           observed_error := some "", failure_reason := some "boom", status := "FAILED" }]) 1
      = 1 ∧
    attCidCount
      (build_message_with_multiple_images (fun _ => true) "txt"
        [{ title := "A", html_intro := "a", image_path := "1.png", image_subtype := "png",
           observed_error := some "", failure_reason := none, status := "PASSED" },
         { title := "B", html_intro := "b", image_path := "2.png", image_subtype := "png",
           observed_error := some "", failure_reason := none, status := "PASSED" },
         { title := "C", html_intro := "c", image_path := "3.png", image_subtype := "png",
           observed_error := some "", failure_reason := some "boom", status := "FAILED" }]) 1
      = 1 := by
  have h := email_builder_parts_and_cids (fun _ => true) "txt" "i" "p.png" "png"
    [{ title := "A", html_intro := "a", image_path := "1.png", image_subtype := "png",
       observed_error := some "", failure_reason := none, status := "PASSED" },
     { title := "B", html_intro := "b", image_path := "2.png", image_subtype := "png",
       observed_error := some "", failure_reason := none, status := "PASSED" },
     { title := "C", html_intro := "c", image_path := "3.png", image_subtype := "png",
       observed_error := some "", failure_reason := some "boom", status := "FAILED" }]
  have hj := h.2.2.2.1 ⟨1, by decide⟩
  refine ⟨h.1, hj.1, ?_⟩
  rw [hj.2]
  rfl

theorem strAppendAssoc (a b c : String) : a ++ b ++ c = a ++ (b ++ c) := by
  rcases a with ⟨la⟩
  rcases b with ⟨lb⟩
  rcases c with ⟨lc⟩
  exact congrArg String.mk (List.append_assoc la lb lc)

/-- C4 counterexample: the wrapper does not always attempt the report email
when the flow raises: with both email policy flags off no email is
attempted, and even with the flags on no email is attempted when the
screenshot file does not exist. -/
theorem wrapper_email_not_always_attempted :
    (test_wrapper { alwaysEmail := false, emailOnFailure := false,
                    subjectBase := "S", htmlIntroBase := "B" }
      (Except.error "Timeout 30000ms exceeded") true true true).emailAttempted = false ∧
    (test_wrapper { alwaysEmail := true, emailOnFailure := true,
                    subjectBase := "S", htmlIntroBase := "B" }
      (Except.error "Timeout 30000ms exceeded") true false true).emailAttempted = false := by
  constructor <;> rfl

/-- C4 (amended): when the flow raises with a non-empty reason, the email
policy enables sending (ALWAYS_EMAIL or EMAIL_ON_FAILURE) and the
screenshot file exists, the wrapper attempts the failure-path capture,
builds the email with subject status FAILED and the failure reason embedded
in the intro, ignores the outcome of the failure-path capture (its
exception is swallowed), and - provided the send itself succeeds -
re-raises the original flow exception. -/
theorem wrapper_failure_email_and_reraise (cfg : WrapCfg) (r : String)
    (failShotOk shotExists sendOk : Bool)
    (hr : r ≠ "") (hpol : cfg.alwaysEmail = true ∨ cfg.emailOnFailure = true)
    (hse : shotExists = true) :
    (test_wrapper cfg (Except.error r) failShotOk shotExists sendOk).failShotAttempted
      = true ∧
    (test_wrapper cfg (Except.error r) failShotOk shotExists sendOk).emailAttempted
      = true ∧
    (test_wrapper cfg (Except.error r) failShotOk shotExists sendOk).emailSubject
      = some (cfg.subjectBase ++ " [FAILED]") ∧
    (∀ m, (test_wrapper cfg (Except.error r) failShotOk shotExists sendOk).emailHtmlIntro
        = some m → r.data <:+: m.data) ∧
    test_wrapper cfg (Except.error r) true shotExists sendOk
      = test_wrapper cfg (Except.error r) false shotExists sendOk ∧
    (sendOk = true →
      (test_wrapper cfg (Except.error r) failShotOk shotExists sendOk).outcome
        = Except.error r) := by
  subst hse
  have hrb : (r == "") = false := by
    rcases hb : r == "" with _ | _
    · rfl
    · exact absurd (by simpa using hb) hr
  have hshould : (cfg.alwaysEmail || cfg.emailOnFailure) = true := by
    rcases hpol with h | h <;> simp [h]
  have hw : test_wrapper cfg (Except.error r) failShotOk true sendOk =
      { failShotAttempted := true
        emailAttempted := true
        emailSubject := some (cfg.subjectBase ++ " [FAILED]")
        emailHtmlIntro := some (cfg.htmlIntroBase
          ++ "<br/><strong>Failure reason:</strong> " ++ r)
        outcome := if sendOk then Except.error r else Except.error "SMTPException" } := by
    have hsubj : cfg.subjectBase ++ " [" ++ "FAILED" ++ "]"
        = cfg.subjectBase ++ " [FAILED]" := by
      rw [strAppendAssoc (cfg.subjectBase ++ " [") "FAILED" "]",
          strAppendAssoc cfg.subjectBase " [" ("FAILED" ++ "]")]
      exact congrArg (fun t => cfg.subjectBase ++ t) (by decide)
    simp [test_wrapper, hshould, hrb, hsubj]
  refine ⟨by rw [hw], by rw [hw], by rw [hw], ?_, rfl, ?_⟩
  · intro m hm
    rw [hw] at hm
    rcases Option.some.inj hm with rfl
    exact ⟨(cfg.htmlIntroBase ++ "<br/><strong>Failure reason:</strong> ").data, [],
      by simp [String.data_append]⟩
  · intro hs
    subst hs
    rw [hw]
    simp

/-- C4 witness: a concrete failing flow with default-style policy flags: the
email is attempted with FAILED status and the original exception is the
outcome. -/
theorem wrapper_failure_email_and_reraise_witness :
    (test_wrapper { alwaysEmail := true, emailOnFailure := true,
                    subjectBase := "GOCC - Health Check", htmlIntroBase := "Hi Team" }
      (Except.error "Timeout") true true true).emailAttempted = true ∧
    (test_wrapper { alwaysEmail := true, emailOnFailure := true,
                    subjectBase := "GOCC - Health Check", htmlIntroBase := "Hi Team" }
      (Except.error "Timeout") true true true).emailSubject
      = some "GOCC - Health Check [FAILED]" ∧
    (test_wrapper { alwaysEmail := true, emailOnFailure := true,
                    subjectBase := "GOCC - Health Check", htmlIntroBase := "Hi Team" }
      (Except.error "Timeout") true true true).outcome = Except.error "Timeout" := by
  have h := wrapper_failure_email_and_reraise
    { alwaysEmail := true, emailOnFailure := true, subjectBase := "GOCC - Health Check",
      htmlIntroBase := "Hi Team" } "Timeout" true true true (by decide) (Or.inl rfl) rfl
  refine ⟨h.2.1, ?_, h.2.2.2.2.2 rfl⟩
  rw [h.2.2.1]
  decide

/-- The status field of one batch result is FAILED exactly when the flow
runner raised. -/
theorem mkBatchSection_status (title intro shot : String) (out : Except String String) :
    (mkBatchSection title intro shot out).status = flowStatus out := by
  cases out <;> rfl

/-- C10 counterexample: a flow fails, the email policy is on and the SMTP
send raises: the batch run ends with the mail failure, not with the final
AssertionError, although a flow failed - refuting that an AssertionError is
raised exactly when at least one flow failed. -/
theorem batch_runner_mail_failure_suppresses_assertion :
    ((runBatch (fun i => if i = 0 then Except.error "TimeoutError" else Except.ok "ok")
        (fun _ => "intro") (fun _ => "shot.png") true true false (fun _ => true)
        "Subj" "txt").results.any (fun r => r.status == "FAILED")) = true ∧
    (runBatch (fun i => if i = 0 then Except.error "TimeoutError" else Except.ok "ok")
        (fun _ => "intro") (fun _ => "shot.png") true true false (fun _ => true)
        "Subj" "txt").outcome = Except.error BatchError.mailFailure := by
  constructor <;> rfl

/-- C10 (amended): the three flows are always attempted in the fixed order;
the results list has exactly one entry per flow whose status is FAILED
precisely when that flow raised; at most one email is attempted, exactly
when the policy enables it, with one section per flow and subject status
FAILED exactly when some flow failed; a send failure propagates and
suppresses the final AssertionError; and when the email step succeeds an
AssertionError is raised at the very end exactly when some flow failed. -/
theorem batch_runner_behavior (outcomes : Fin 3 → Except String String)
    (introOf shotOf : Fin 3 → String) (alwaysEmail emailOnFailure sendOk : Bool)
    (fe : String → Bool) (subjectBase textBody : String) :
    (runBatch outcomes introOf shotOf alwaysEmail emailOnFailure sendOk fe subjectBase
        textBody).attempted
      = ["Outpatients Claims", "My Medical Card", "Find My Doctor"] ∧
    (runBatch outcomes introOf shotOf alwaysEmail emailOnFailure sendOk fe subjectBase
        textBody).results.length = 3 ∧
    (runBatch outcomes introOf shotOf alwaysEmail emailOnFailure sendOk fe subjectBase
        textBody).results.map (fun r => r.status)
      = [flowStatus (outcomes 0), flowStatus (outcomes 1), flowStatus (outcomes 2)] ∧
    (runBatch outcomes introOf shotOf alwaysEmail emailOnFailure sendOk fe subjectBase
        textBody).emailAttempted
      = (alwaysEmail
          || (((runBatch outcomes introOf shotOf alwaysEmail emailOnFailure sendOk fe
                subjectBase textBody).results.any (fun r => r.status == "FAILED"))
              && emailOnFailure)) ∧
    ((runBatch outcomes introOf shotOf alwaysEmail emailOnFailure sendOk fe subjectBase
        textBody).emailAttempted = true →
      (runBatch outcomes introOf shotOf alwaysEmail emailOnFailure sendOk fe subjectBase
          textBody).emailSubject
        = some (subjectBase ++ " ["
            ++ (if (runBatch outcomes introOf shotOf alwaysEmail emailOnFailure sendOk fe
                    subjectBase textBody).results.any (fun r => r.status == "FAILED")
                then "FAILED" else "PASSED") ++ "]")) ∧
    (∀ m, (runBatch outcomes introOf shotOf alwaysEmail emailOnFailure sendOk fe
        subjectBase textBody).emailMsg = some m →
      m = build_message_with_multiple_images fe textBody
            (runBatch outcomes introOf shotOf alwaysEmail emailOnFailure sendOk fe
              subjectBase textBody).results ∧
      (mkBlocks 0 (runBatch outcomes introOf shotOf alwaysEmail emailOnFailure sendOk fe
        subjectBase textBody).results).length = 3) ∧
    ((runBatch outcomes introOf shotOf alwaysEmail emailOnFailure sendOk fe subjectBase
        textBody).emailAttempted = true → sendOk = false →
      (runBatch outcomes introOf shotOf alwaysEmail emailOnFailure sendOk fe subjectBase
          textBody).outcome = Except.error BatchError.mailFailure) ∧
    (sendOk = true →
      ((∃ d, (runBatch outcomes introOf shotOf alwaysEmail emailOnFailure sendOk fe
          subjectBase textBody).outcome = Except.error (BatchError.assertionFailed d))
        ↔ (runBatch outcomes introOf shotOf alwaysEmail emailOnFailure sendOk fe
            subjectBase textBody).results.any (fun r => r.status == "FAILED") = true)) := by
  refine ⟨rfl, rfl, ?_, rfl, ?_, ?_, ?_, ?_⟩
  · simp [runBatch, mkBatchSection_status]
  · intro h
    simp only [runBatch] at h ⊢
    rw [h]
    simp
  · intro m hm
    simp only [runBatch] at hm ⊢
    rcases hcond : (alwaysEmail
        || (([mkBatchSection "Outpatients Claims" (introOf 0) (shotOf 0) (outcomes 0),
              mkBatchSection "My Medical Card" (introOf 1) (shotOf 1) (outcomes 1),
              mkBatchSection "Find My Doctor" (introOf 2) (shotOf 2) (outcomes 2)].any
            (fun r => r.status == "FAILED")) && emailOnFailure)) with _ | _ <;>
      rw [hcond] at hm
    · cases hm
    · simp only [if_true] at hm
      refine ⟨(Option.some.inj hm).symm, ?_⟩
      rw [mkBlocks_length]
      rfl
  · intro hAtt hS
    subst hS
    simp only [runBatch] at hAtt ⊢
    rw [hAtt]
    rfl
  · intro hS
    subst hS
    simp only [runBatch]
    rcases haf : ([mkBatchSection "Outpatients Claims" (introOf 0) (shotOf 0) (outcomes 0),
        mkBatchSection "My Medical Card" (introOf 1) (shotOf 1) (outcomes 1),
        mkBatchSection "Find My Doctor" (introOf 2) (shotOf 2) (outcomes 2)].any
      (fun r => r.status == "FAILED")) with _ | _ <;> simp [haf]

/-- C10 witness: flow 1 fails and the send succeeds: all three flows run,
statuses are FAILED, PASSED, PASSED, the one email is attempted, and the
run ends in the final AssertionError. -/
theorem batch_runner_behavior_witness :
    (runBatch (fun i => if i = 0 then Except.error "boom" else Except.ok "text")
        (fun _ => "intro") (fun _ => "shot.png") true true true (fun _ => true)
        "S" "T").results.map (fun r => r.status) = ["FAILED", "PASSED", "PASSED"] ∧
    (runBatch (fun i => if i = 0 then Except.error "boom" else Except.ok "text")
        (fun _ => "intro") (fun _ => "shot.png") true true true (fun _ => true)
        "S" "T").emailAttempted = true ∧
    (∃ d, (runBatch (fun i => if i = 0 then Except.error "boom" else Except.ok "text")
        (fun _ => "intro") (fun _ => "shot.png") true true true (fun _ => true)
        "S" "T").outcome = Except.error (BatchError.assertionFailed d)) := by
  have h := batch_runner_behavior
    (fun i => if i = 0 then Except.error "boom" else Except.ok "text")
    (fun _ => "intro") (fun _ => "shot.png") true true true (fun _ => true) "S" "T"
  refine ⟨?_, ?_, ?_⟩
  · rw [h.2.2.1]
    decide
  · rw [h.2.2.2.1]
    decide
  · exact (h.2.2.2.2.2.2.2 rfl).mpr (by decide)
